import Mathlib

/-!
Verification of the Probe-and-Status Service (`src/app.py`) of the
kubernetes-platform-stack repository.

The embedding models the HTTP handlers of `app.py` as pure Lean functions:
a JSON value type (the spec's tagged union null/bool/number/string/array/
object), the process environment as `String → Option String`, the startup
configuration captured at module load, and each Flask route handler as a
function from the startup configuration, the request-time environment, the
current datetime and the request to a response.
-/

namespace PlatformStack

/-- JSON values, per the spec's design note: a tagged union of
null / bool / number / string / array / object. -/
inductive Json where
  | null
  | bool (b : Bool)
  | num (n : Int)
  | str (s : String)
  | arr (xs : List Json)
  | obj (fields : List (String × Json))

/-- The process environment: a partial map from variable names to values,
as exposed by `os.getenv`. -/
def Env : Type := String → Option String

/-- Model of Python `os.getenv(key, default)` with a string default:
the variable's value when set, else the default. -/
def getenv (env : Env) (key dflt : String) : String :=
  (env key).getD dflt

/-- An HTTP request: method, path, and the outcome of JSON-parsing its body.
Modelled from the spec: the body parse is performed by Flask's
`request.get_json()`, which is not part of this repository; per the spec it
either yields the parsed JSON value of the body or fails with a parse error
message (`body must parse as JSON`, failure reported with the message). -/
structure Request where
  method : String
  path : String
  jsonBody : Except String Json

/-- A response body: a JSON document (produced by `jsonify`) or plain text
(the `/metrics` endpoint). -/
inductive Body where
  | json (j : Json)
  | text (s : String)

/-- An HTTP response: status code, body, content type. -/
structure Response where
  status : Nat
  body : Body
  contentType : String

/-- Field lookup in a JSON object; `none` on non-objects. -/
def getField : Json → String → Option Json
  | .obj fields, k => fields.lookup k
  | _, _ => none

/-- Field lookup in a response's JSON body. -/
def Response.field (r : Response) (k : String) : Option Json :=
  match r.body with
  | .json j => getField j k
  | .text _ => none

/-! ### Datetime model

Modelled from the spec: handlers call `datetime.utcnow().isoformat()`
from Python's standard library (not repository code); per the spec the
result is an ISO-8601 UTC timestamp such as `2024-01-01T00:00:00.000000`.
-/

/-- A UTC datetime as produced by `datetime.utcnow()`. -/
structure Datetime where
  year : Nat
  month : Nat
  day : Nat
  hour : Nat
  minute : Nat
  second : Nat
  microsecond : Nat

/-- Field bounds of a real datetime value. -/
def ValidDatetime (dt : Datetime) : Prop :=
  dt.year < 10000 ∧ 1 ≤ dt.month ∧ dt.month ≤ 12 ∧ 1 ≤ dt.day ∧ dt.day ≤ 31 ∧
  dt.hour < 24 ∧ dt.minute < 60 ∧ dt.second < 60 ∧ dt.microsecond < 1000000

instance (dt : Datetime) : Decidable (ValidDatetime dt) := by
  unfold ValidDatetime
  infer_instance

/-- Two decimal digits of `n` (zero padded). -/
def pad2 (n : Nat) : List Char :=
  [Nat.digitChar (n / 10 % 10), Nat.digitChar (n % 10)]

/-- Four decimal digits of `n` (zero padded). -/
def pad4 (n : Nat) : List Char :=
  [Nat.digitChar (n / 1000 % 10), Nat.digitChar (n / 100 % 10),
   Nat.digitChar (n / 10 % 10), Nat.digitChar (n % 10)]

/-- Six decimal digits of `n` (zero padded). -/
def pad6 (n : Nat) : List Char :=
  [Nat.digitChar (n / 100000 % 10), Nat.digitChar (n / 10000 % 10),
   Nat.digitChar (n / 1000 % 10), Nat.digitChar (n / 100 % 10),
   Nat.digitChar (n / 10 % 10), Nat.digitChar (n % 10)]

/-- Modelled from the spec: `datetime.isoformat()`, the ISO-8601 rendering
`YYYY-MM-DDTHH:MM:SS.ffffff` of a UTC datetime. -/
def isoformat (dt : Datetime) : String :=
  String.mk (pad4 dt.year ++ '-' :: pad2 dt.month ++ '-' :: pad2 dt.day ++
    'T' :: pad2 dt.hour ++ ':' :: pad2 dt.minute ++ ':' :: pad2 dt.second ++
    '.' :: pad6 dt.microsecond)

/-- Numeric value of a decimal digit character. -/
def charVal (c : Char) : Nat := c.toNat - 48

/-- Parse an ISO-8601 `YYYY-MM-DDTHH:MM:SS.ffffff` string back into a
datetime; `none` when the string does not have that shape. -/
def parseIso (s : String) : Option Datetime :=
  match s.data with
  | [y1, y2, y3, y4, s1, a1, a2, s2, b1, b2, s3, h1, h2, s4, m1, m2, s5,
     c1, c2, s6, u1, u2, u3, u4, u5, u6] =>
    if s1 = '-' ∧ s2 = '-' ∧ s3 = 'T' ∧ s4 = ':' ∧ s5 = ':' ∧ s6 = '.' ∧
       y1.isDigit ∧ y2.isDigit ∧ y3.isDigit ∧ y4.isDigit ∧
       a1.isDigit ∧ a2.isDigit ∧ b1.isDigit ∧ b2.isDigit ∧
       h1.isDigit ∧ h2.isDigit ∧ m1.isDigit ∧ m2.isDigit ∧
       c1.isDigit ∧ c2.isDigit ∧ u1.isDigit ∧ u2.isDigit ∧
       u3.isDigit ∧ u4.isDigit ∧ u5.isDigit ∧ u6.isDigit then
      some ⟨1000 * charVal y1 + 100 * charVal y2 + 10 * charVal y3 + charVal y4,
            10 * charVal a1 + charVal a2,
            10 * charVal b1 + charVal b2,
            10 * charVal h1 + charVal h2,
            10 * charVal m1 + charVal m2,
            10 * charVal c1 + charVal c2,
            100000 * charVal u1 + 10000 * charVal u2 + 1000 * charVal u3 +
              100 * charVal u4 + 10 * charVal u5 + charVal u6⟩
    else none
  | _ => none

/-! ### Application constants and startup (`app.py` lines 19-21) -/

/-- `APP_NAME = "kubernetes-platform-stack"`. -/
def APP_NAME : String := "kubernetes-platform-stack"

/-- `APP_VERSION = "1.0.0"`. -/
def APP_VERSION : String := "1.0.0"

/-- Configuration captured once at module load. Only `ENVIRONMENT` is read
at startup by `app.py` (`ENVIRONMENT = os.getenv('ENVIRONMENT', 'unknown')`). -/
structure StartupConfig where
  environment : String

/-- Module-load-time evaluation: capture `ENVIRONMENT` with default
`"unknown"` from the startup environment. -/
def startup (env : Env) : StartupConfig :=
  ⟨getenv env "ENVIRONMENT" "unknown"⟩

/-! ### Route handlers (`app.py`) -/

/-- `GET /health` handler (`app.py` lines 24-30). -/
def health (now : Datetime) : Response :=
  ⟨200, .json (.obj [("status", .str "healthy"),
                     ("timestamp", .str (isoformat now))]), "application/json"⟩

/-- `GET /ready` handler (`app.py` lines 33-39). -/
def ready (now : Datetime) : Response :=
  ⟨200, .json (.obj [("ready", .bool true),
                     ("timestamp", .str (isoformat now))]), "application/json"⟩

/-- `GET /api/v1/status` handler (`app.py` lines 42-50). -/
def status (cfg : StartupConfig) (now : Datetime) : Response :=
  ⟨200, .json (.obj [("app", .str APP_NAME),
                     ("version", .str APP_VERSION),
                     ("environment", .str cfg.environment),
                     ("timestamp", .str (isoformat now))]), "application/json"⟩

/-- `POST /api/v1/echo` handler (`app.py` lines 53-66): on a successful
body parse, echo the parsed value; on a parse exception, 400 with the
exception's message. -/
def echo (req : Request) (now : Datetime) : Response :=
  match req.jsonBody with
  | .ok d =>
    ⟨200, .json (.obj [("message", .str "echo received"),
                       ("data", d),
                       ("timestamp", .str (isoformat now))]), "application/json"⟩
  | .error e =>
    ⟨400, .json (.obj [("error", .str e)]), "application/json"⟩

/-- The hardcoded Prometheus text blob of `app.py` lines 73-87
(`metrics_data`), verbatim. -/
def metrics_data : String :=
  "# HELP app_requests_total Total application requests\n# TYPE app_requests_total counter\napp_requests_total\x7bmethod=\"GET\",path=\"/health\"\x7d 100\napp_requests_total\x7bmethod=\"GET\",path=\"/ready\"\x7d 50\napp_requests_total\x7bmethod=\"GET\",path=\"/api/v1/status\"\x7d 30\n\n# HELP app_request_duration_seconds Request latency\n# TYPE app_request_duration_seconds histogram\napp_request_duration_seconds_bucket\x7ble=\"0.1\"\x7d 95\napp_request_duration_seconds_bucket\x7ble=\"0.5\"\x7d 98\napp_request_duration_seconds_bucket\x7ble=\"1.0\"\x7d 100\n\n# HELP app_info Application info\n# TYPE app_info gauge\napp_info\x7bapp=\"kubernetes-platform-stack\",version=\"1.0.0\",environment=\"unknown\"\x7d 1\n"

/-- `GET /metrics` handler (`app.py` lines 69-89): the constant blob with
content type `text/plain`. -/
def metrics : Response :=
  ⟨200, .text metrics_data, "text/plain"⟩

/-- The JSON value of `os.getenv('PORT', 8080)` under `jsonify`: the raw
string value of `PORT` when the variable is set, the integer `8080`
otherwise (`os.getenv` returns the default unconverted). -/
def portField (env : Env) : Json :=
  match env "PORT" with
  | some v => .str v
  | none => .num 8080

/-- `GET /api/v1/config` handler (`app.py` lines 92-102). `PORT` and
`LOG_LEVEL` are read from the environment inside the handler, i.e. at
request time. -/
def config (cfg : StartupConfig) (env : Env) (now : Datetime) : Response :=
  ⟨200, .json (.obj [("app", .str APP_NAME),
                     ("version", .str APP_VERSION),
                     ("environment", .str cfg.environment),
                     ("port", portField env),
                     ("log_level", .str (getenv env "LOG_LEVEL" "INFO")),
                     ("timestamp", .str (isoformat now))]), "application/json"⟩

/-- 404 handler (`app.py` lines 105-108). -/
def not_found : Response :=
  ⟨404, .json (.obj [("error", .str "not found")]), "application/json"⟩

/-- Dispatch a request to its handler. Modelled from the spec: routing is
performed by Flask (not repository code); per the spec it is a pure routing
table lookup by method+path, with any unmatched request handled by the 404
handler. -/
def handleRequest (cfg : StartupConfig) (env : Env) (now : Datetime)
    (req : Request) : Response :=
  if req.method == "GET" && req.path == "/health" then health now
  else if req.method == "GET" && req.path == "/ready" then ready now
  else if req.method == "GET" && req.path == "/api/v1/status" then status cfg now
  else if req.method == "POST" && req.path == "/api/v1/echo" then echo req now
  else if req.method == "GET" && req.path == "/metrics" then metrics
  else if req.method == "GET" && req.path == "/api/v1/config" then config cfg env now
  else not_found

/-- A request matches a defined route when its method-and-path pair is one
of the six registered routes. -/
def matchesRoute (req : Request) : Bool :=
  (req.method == "GET" && req.path == "/health") ||
  (req.method == "GET" && req.path == "/ready") ||
  (req.method == "GET" && req.path == "/api/v1/status") ||
  (req.method == "POST" && req.path == "/api/v1/echo") ||
  (req.method == "GET" && req.path == "/metrics") ||
  (req.method == "GET" && req.path == "/api/v1/config")

/-- A sample datetime for concrete evaluations. -/
def sampleNow : Datetime := ⟨2024, 1, 1, 0, 0, 0, 0⟩

/-- The empty environment: every variable unset. -/
def emptyEnv : Env := fun _ => none

/-- An environment with only `PORT` set, to `"9090"`. -/
def envPort9090 : Env := fun k => if k = "PORT" then some "9090" else none

/-- Content of `metrics_data` after the first occurrence of
`app_requests_total`. -/
def metricsAfterCounter : String :=
  " Total application requests\n# TYPE app_requests_total counter\napp_requests_total\x7bmethod=\"GET\",path=\"/health\"\x7d 100\napp_requests_total\x7bmethod=\"GET\",path=\"/ready\"\x7d 50\napp_requests_total\x7bmethod=\"GET\",path=\"/api/v1/status\"\x7d 30\n\n# HELP app_request_duration_seconds Request latency\n# TYPE app_request_duration_seconds histogram\napp_request_duration_seconds_bucket\x7ble=\"0.1\"\x7d 95\napp_request_duration_seconds_bucket\x7ble=\"0.5\"\x7d 98\napp_request_duration_seconds_bucket\x7ble=\"1.0\"\x7d 100\n\n# HELP app_info Application info\n# TYPE app_info gauge\napp_info\x7bapp=\"kubernetes-platform-stack\",version=\"1.0.0\",environment=\"unknown\"\x7d 1\n"

/-- Content of `metrics_data` after the first occurrence of `# HELP`. -/
def metricsAfterHelp : String :=
  " app_requests_total Total application requests\n# TYPE app_requests_total counter\napp_requests_total\x7bmethod=\"GET\",path=\"/health\"\x7d 100\napp_requests_total\x7bmethod=\"GET\",path=\"/ready\"\x7d 50\napp_requests_total\x7bmethod=\"GET\",path=\"/api/v1/status\"\x7d 30\n\n# HELP app_request_duration_seconds Request latency\n# TYPE app_request_duration_seconds histogram\napp_request_duration_seconds_bucket\x7ble=\"0.1\"\x7d 95\napp_request_duration_seconds_bucket\x7ble=\"0.5\"\x7d 98\napp_request_duration_seconds_bucket\x7ble=\"1.0\"\x7d 100\n\n# HELP app_info Application info\n# TYPE app_info gauge\napp_info\x7bapp=\"kubernetes-platform-stack\",version=\"1.0.0\",environment=\"unknown\"\x7d 1\n"

/-- Content of `metrics_data` after the first occurrence of `# TYPE`. -/
def metricsAfterType : String :=
  " app_requests_total counter\napp_requests_total\x7bmethod=\"GET\",path=\"/health\"\x7d 100\napp_requests_total\x7bmethod=\"GET\",path=\"/ready\"\x7d 50\napp_requests_total\x7bmethod=\"GET\",path=\"/api/v1/status\"\x7d 30\n\n# HELP app_request_duration_seconds Request latency\n# TYPE app_request_duration_seconds histogram\napp_request_duration_seconds_bucket\x7ble=\"0.1\"\x7d 95\napp_request_duration_seconds_bucket\x7ble=\"0.5\"\x7d 98\napp_request_duration_seconds_bucket\x7ble=\"1.0\"\x7d 100\n\n# HELP app_info Application info\n# TYPE app_info gauge\napp_info\x7bapp=\"kubernetes-platform-stack\",version=\"1.0.0\",environment=\"unknown\"\x7d 1\n"

/-- Content of `metrics_data` before the `environment=\x22unknown\x22` label of
the `app_info` sample. -/
def metricsBeforeEnvLabel : String :=
  "# HELP app_requests_total Total application requests\n# TYPE app_requests_total counter\napp_requests_total\x7bmethod=\"GET\",path=\"/health\"\x7d 100\napp_requests_total\x7bmethod=\"GET\",path=\"/ready\"\x7d 50\napp_requests_total\x7bmethod=\"GET\",path=\"/api/v1/status\"\x7d 30\n\n# HELP app_request_duration_seconds Request latency\n# TYPE app_request_duration_seconds histogram\napp_request_duration_seconds_bucket\x7ble=\"0.1\"\x7d 95\napp_request_duration_seconds_bucket\x7ble=\"0.5\"\x7d 98\napp_request_duration_seconds_bucket\x7ble=\"1.0\"\x7d 100\n\n# HELP app_info Application info\n# TYPE app_info gauge\napp_info\x7bapp=\"kubernetes-platform-stack\",version=\"1.0.0\","

/-! ### Helper lemmas about digit rendering and ISO-8601 round-tripping -/

/-- The decimal digit character of `d < 10` evaluates back to `d`. -/
theorem charVal_digitChar (d : Nat) (hd : d < 10) : charVal (Nat.digitChar d) = d := by
  interval_cases d <;> decide

/-- Unconditional form of `charVal_digitChar` for `n % 10`. -/
theorem charVal_digitChar_mod (n : Nat) : charVal (Nat.digitChar (n % 10)) = n % 10 :=
  charVal_digitChar _ (Nat.mod_lt _ (by norm_num))

/-- The decimal digit character of `d < 10` is a digit. -/
theorem digitChar_isDigit (d : Nat) (hd : d < 10) : (Nat.digitChar d).isDigit = true := by
  interval_cases d <;> decide

/-- Unconditional form of `digitChar_isDigit` for `n % 10`. -/
theorem digitChar_mod_isDigit (n : Nat) : (Nat.digitChar (n % 10)).isDigit = true :=
  digitChar_isDigit _ (Nat.mod_lt _ (by norm_num))

/-- Parsing the ISO-8601 rendering of a valid datetime recovers the
datetime: response timestamps are parseable as datetimes. -/
theorem parse_isoformat (dt : Datetime) (h : ValidDatetime dt) :
    parseIso (isoformat dt) = some dt := by
  obtain ⟨hy, hmo1, hmo2, hd1, hd2, hh, hmi, hs, hu⟩ := h
  simp only [isoformat, pad4, pad2, pad6, parseIso, List.cons_append, List.nil_append]
  rw [if_pos]
  · simp only [Option.some.injEq, charVal_digitChar_mod]
    obtain ⟨y, mo, d, hr, mi, s, us⟩ := dt
    simp only [Datetime.mk.injEq]
    simp only at hy hmo1 hmo2 hd1 hd2 hh hmi hs hu ⊢
    omega
  · simp [digitChar_mod_isDigit]

/-! ### Claim theorems -/

/-- C1: for every JSON value `B` successfully parsed from the body of a
`POST /api/v1/echo` request, the response has status 200 and its body is
the JSON object whose `data` field deep-equals `B` and whose `message`
field equals `"echo received"`: the parsed body is embedded in the
response unchanged. -/
theorem echo_json_roundtrip (cfg : StartupConfig) (env : Env) (now : Datetime) (B : Json) :
    handleRequest cfg env now ⟨"POST", "/api/v1/echo", .ok B⟩ =
      ⟨200, .json (.obj [("message", .str "echo received"), ("data", B),
        ("timestamp", .str (isoformat now))]), "application/json"⟩ ∧
    (handleRequest cfg env now ⟨"POST", "/api/v1/echo", .ok B⟩).status = 200 ∧
    (handleRequest cfg env now ⟨"POST", "/api/v1/echo", .ok B⟩).field "data" = some B ∧
    (handleRequest cfg env now ⟨"POST", "/api/v1/echo", .ok B⟩).field "message" =
      some (.str "echo received") :=
  ⟨rfl, rfl, rfl, rfl⟩

/-- C4: for every `POST /api/v1/echo` request whose body fails to parse as
JSON with error message `e`, the response has status 400 and its body is
exactly the one-key object carrying `e` under `error`. -/
theorem echo_parse_error_400 (cfg : StartupConfig) (env : Env) (now : Datetime) (e : String) :
    handleRequest cfg env now ⟨"POST", "/api/v1/echo", .error e⟩ =
      ⟨400, .json (.obj [("error", .str e)]), "application/json"⟩ :=
  rfl

/-- C9: a `POST /api/v1/echo` request whose body is the JSON literal
`null` (which parses to the JSON null value) takes the success branch:
status 200, `message` equal to `"echo received"`, and `data` equal to
JSON null. -/
theorem echo_null_success (cfg : StartupConfig) (env : Env) (now : Datetime) :
    handleRequest cfg env now ⟨"POST", "/api/v1/echo", .ok .null⟩ =
      ⟨200, .json (.obj [("message", .str "echo received"), ("data", .null),
        ("timestamp", .str (isoformat now))]), "application/json"⟩ ∧
    (handleRequest cfg env now ⟨"POST", "/api/v1/echo", .ok .null⟩).status = 200 :=
  ⟨rfl, rfl⟩

/-- C5: every request whose method-and-path pair matches none of the six
registered routes is answered with status 404 and the fixed body
carrying `"not found"` under `error`. -/
theorem unmatched_route_404 (cfg : StartupConfig) (env : Env) (now : Datetime) (req : Request)
    (h : matchesRoute req = false) :
    handleRequest cfg env now req =
      ⟨404, .json (.obj [("error", .str "not found")]), "application/json"⟩ := by
  unfold matchesRoute at h
  simp only [Bool.or_eq_false_iff] at h
  obtain ⟨⟨⟨⟨⟨h1, h2⟩, h3⟩, h4⟩, h5⟩, h6⟩ := h
  unfold handleRequest
  rw [h1, h2, h3, h4, h5, h6]
  simp [not_found]

/-- Witness for C5: `GET /nonexistent` is unmatched and yields the 404
response. -/
theorem unmatched_route_404_witness :
    matchesRoute ⟨"GET", "/nonexistent", Except.error ""⟩ = false ∧
    handleRequest (startup emptyEnv) emptyEnv sampleNow ⟨"GET", "/nonexistent", Except.error ""⟩ =
      ⟨404, .json (.obj [("error", .str "not found")]), "application/json"⟩ :=
  ⟨rfl, unmatched_route_404 (startup emptyEnv) emptyEnv sampleNow
    ⟨"GET", "/nonexistent", Except.error ""⟩ rfl⟩

/-- C6: `GET /health` always returns status 200 with a `status` field equal
to `"healthy"` and a `timestamp` field holding the current ISO-8601
datetime, which parses back to the current datetime; `GET /ready` always
returns status 200 with a `ready` field equal to `true`. -/
theorem health_ready_contract (cfg : StartupConfig) (env : Env) (now : Datetime)
    (b b' : Except String Json) (hv : ValidDatetime now) :
    (handleRequest cfg env now ⟨"GET", "/health", b⟩).status = 200 ∧
    (handleRequest cfg env now ⟨"GET", "/health", b⟩).field "status" = some (.str "healthy") ∧
    (handleRequest cfg env now ⟨"GET", "/health", b⟩).field "timestamp" =
      some (.str (isoformat now)) ∧
    parseIso (isoformat now) = some now ∧
    (handleRequest cfg env now ⟨"GET", "/ready", b'⟩).status = 200 ∧
    (handleRequest cfg env now ⟨"GET", "/ready", b'⟩).field "ready" = some (.bool true) :=
  ⟨rfl, rfl, rfl, parse_isoformat now hv, rfl, rfl⟩

/-- Witness for C6 at the sample datetime. -/
theorem health_ready_contract_witness :
    ValidDatetime sampleNow ∧ parseIso (isoformat sampleNow) = some sampleNow :=
  ⟨by decide,
   (health_ready_contract (startup emptyEnv) emptyEnv sampleNow (Except.error "")
      (Except.error "") (by decide)).2.2.2.1⟩

/-- C8: when `ENVIRONMENT` is unset at startup, every `GET /api/v1/status`
response has status 200, an `environment` field equal to the default
`"unknown"`, and `app`, `version` and `timestamp` fields. -/
theorem status_environment_default (senv renv : Env) (now : Datetime) (b : Except String Json)
    (h : senv "ENVIRONMENT" = none) :
    (handleRequest (startup senv) renv now ⟨"GET", "/api/v1/status", b⟩).status = 200 ∧
    (handleRequest (startup senv) renv now ⟨"GET", "/api/v1/status", b⟩).field "environment" =
      some (.str "unknown") ∧
    (handleRequest (startup senv) renv now ⟨"GET", "/api/v1/status", b⟩).field "app" =
      some (.str APP_NAME) ∧
    (handleRequest (startup senv) renv now ⟨"GET", "/api/v1/status", b⟩).field "version" =
      some (.str APP_VERSION) ∧
    (handleRequest (startup senv) renv now ⟨"GET", "/api/v1/status", b⟩).field "timestamp" =
      some (.str (isoformat now)) := by
  refine ⟨rfl, ?_, rfl, rfl, rfl⟩
  show some (Json.str (getenv senv "ENVIRONMENT" "unknown")) = some (Json.str "unknown")
  rw [getenv, h]
  rfl

/-- Witness for C8 at the empty environment. -/
theorem status_environment_default_witness :
    emptyEnv "ENVIRONMENT" = none ∧
    (handleRequest (startup emptyEnv) emptyEnv sampleNow
        ⟨"GET", "/api/v1/status", Except.error ""⟩).field "environment" =
      some (.str "unknown") :=
  ⟨rfl, (status_environment_default emptyEnv emptyEnv sampleNow (Except.error "") rfl).2.1⟩

set_option maxRecDepth 20000 in
/-- C7: every `GET /metrics` response has status 200, content type
`text/plain`, and a body equal to the one fixed constant string
`metrics_data`, which contains the literal substrings
`app_requests_total` and `HELP` as well as `# HELP` and `# TYPE`
comment-line markers. -/
theorem metrics_contract (cfg : StartupConfig) (env : Env) (now : Datetime)
    (b : Except String Json) :
    handleRequest cfg env now ⟨"GET", "/metrics", b⟩ =
      ⟨200, .text metrics_data, "text/plain"⟩ ∧
    (∃ p q, metrics_data = p ++ "app_requests_total" ++ q) ∧
    (∃ p q, metrics_data = p ++ "HELP" ++ q) ∧
    (∃ p q, metrics_data = p ++ "# HELP" ++ q) ∧
    (∃ p q, metrics_data = p ++ "# TYPE" ++ q) :=
  ⟨rfl,
   ⟨"# HELP ", metricsAfterCounter, by rfl⟩,
   ⟨"# ", metricsAfterHelp, by rfl⟩,
   ⟨"", metricsAfterHelp, by rfl⟩,
   ⟨"# HELP app_requests_total Total application requests\n", metricsAfterType, by rfl⟩⟩

set_option maxRecDepth 20000 in
/-- C10: the `GET /metrics` response is completely independent of the
environment: for any two processes started with any two environments
(in particular different `ENVIRONMENT` values) and any two request-time
environments, the responses are identical; and the constant body carries
the label text `environment=\x22unknown\x22` in its `app_info` sample. -/
theorem metrics_noninterference (senv1 senv2 renv1 renv2 : Env) (now1 now2 : Datetime)
    (b1 b2 : Except String Json) :
    handleRequest (startup senv1) renv1 now1 ⟨"GET", "/metrics", b1⟩ =
      handleRequest (startup senv2) renv2 now2 ⟨"GET", "/metrics", b2⟩ ∧
    (∃ p q, metrics_data = p ++ "environment=\"unknown\"" ++ q) :=
  ⟨rfl, ⟨metricsBeforeEnvLabel, "\x7d 1\n", by rfl⟩⟩

/-- Counterexample for C2 as stated: with `PORT` set to `"9090"` at request
time, the `port` field of the `GET /api/v1/config` response is the JSON
string `"9090"`, not an integer (`os.getenv` returns the raw string and
only the unset default `8080` is an integer). -/
theorem config_port_integer_counterexample :
    (handleRequest (startup emptyEnv) envPort9090 sampleNow
        ⟨"GET", "/api/v1/config", Except.error ""⟩).field "port" =
      some (Json.str "9090") ∧
    Json.str "9090" ≠ Json.num 9090 :=
  ⟨rfl, fun h => Json.noConfusion h⟩

/-- C2 as amended: every `GET /api/v1/config` response has status 200 and
fields `app`, `version`, `environment`, `port`, `log_level`, `timestamp`;
`app` and `version` are the static constants and `environment` the
startup-captured value, while `port` is the raw string value of the
`PORT` environment variable read at request time when set (the integer
8080 when unset) and `log_level` the request-time `LOG_LEVEL` value
(default `"INFO"`). -/
theorem config_contract (cfg : StartupConfig) (env : Env) (now : Datetime)
    (b : Except String Json) :
    (handleRequest cfg env now ⟨"GET", "/api/v1/config", b⟩).status = 200 ∧
    (handleRequest cfg env now ⟨"GET", "/api/v1/config", b⟩).field "app" =
      some (.str APP_NAME) ∧
    (handleRequest cfg env now ⟨"GET", "/api/v1/config", b⟩).field "version" =
      some (.str APP_VERSION) ∧
    (handleRequest cfg env now ⟨"GET", "/api/v1/config", b⟩).field "environment" =
      some (.str cfg.environment) ∧
    (∀ s, env "PORT" = some s →
      (handleRequest cfg env now ⟨"GET", "/api/v1/config", b⟩).field "port" =
        some (.str s)) ∧
    (env "PORT" = none →
      (handleRequest cfg env now ⟨"GET", "/api/v1/config", b⟩).field "port" =
        some (.num 8080)) ∧
    (∀ s, env "LOG_LEVEL" = some s →
      (handleRequest cfg env now ⟨"GET", "/api/v1/config", b⟩).field "log_level" =
        some (.str s)) ∧
    (env "LOG_LEVEL" = none →
      (handleRequest cfg env now ⟨"GET", "/api/v1/config", b⟩).field "log_level" =
        some (.str "INFO")) ∧
    (handleRequest cfg env now ⟨"GET", "/api/v1/config", b⟩).field "timestamp" =
      some (.str (isoformat now)) := by
  refine ⟨rfl, rfl, rfl, rfl, ?_, ?_, ?_, ?_, rfl⟩
  · intro s hs
    show some (portField env) = some (Json.str s)
    rw [portField, hs]
  · intro hs
    show some (portField env) = some (Json.num 8080)
    rw [portField, hs]
  · intro s hs
    show some (Json.str (getenv env "LOG_LEVEL" "INFO")) = some (Json.str s)
    rw [getenv, hs]
    rfl
  · intro hs
    show some (Json.str (getenv env "LOG_LEVEL" "INFO")) = some (Json.str "INFO")
    rw [getenv, hs]
    rfl

/-- Witness for amended C2: the `port` field is the string `"9090"` when
`PORT` is set to `"9090"` and the integer 8080 when `PORT` is unset. -/
theorem config_contract_witness :
    (handleRequest (startup emptyEnv) envPort9090 sampleNow
        ⟨"GET", "/api/v1/config", Except.error ""⟩).field "port" =
      some (Json.str "9090") ∧
    (handleRequest (startup emptyEnv) emptyEnv sampleNow
        ⟨"GET", "/api/v1/config", Except.error ""⟩).field "port" =
      some (Json.num 8080) :=
  ⟨(config_contract (startup emptyEnv) envPort9090 sampleNow
      (Except.error "")).2.2.2.2.1 "9090" rfl,
   (config_contract (startup emptyEnv) emptyEnv sampleNow
      (Except.error "")).2.2.2.2.2.1 rfl⟩

/-- Counterexample for C3 as stated: two `GET /api/v1/config` requests
handled by the same process (same startup environment) yield different
responses when `PORT` changes between the requests, because `PORT` is
re-read inside the handler. -/
theorem env_reread_counterexample :
    handleRequest (startup emptyEnv) emptyEnv sampleNow
        ⟨"GET", "/api/v1/config", Except.error ""⟩ ≠
      handleRequest (startup emptyEnv) envPort9090 sampleNow
        ⟨"GET", "/api/v1/config", Except.error ""⟩ := by
  intro hEq
  have h1 : (handleRequest (startup emptyEnv) emptyEnv sampleNow
      ⟨"GET", "/api/v1/config", Except.error ""⟩).field "port" = some (Json.num 8080) := rfl
  have h2 : (handleRequest (startup emptyEnv) envPort9090 sampleNow
      ⟨"GET", "/api/v1/config", Except.error ""⟩).field "port" = some (Json.str "9090") := rfl
  rw [hEq, h2] at h1
  exact Json.noConfusion (Option.some.inj h1)

/-- C3 as amended: `ENVIRONMENT` is read once at startup, so every route
other than `GET /api/v1/config` is unaffected by environment changes
between requests, and even the config response's `environment` field is
the startup-captured value; but the config handler re-reads `PORT` and
`LOG_LEVEL` at request time, so config responses agree only when those
two variables agree. -/
theorem env_read_discipline (senv renv renv' : Env) (now : Datetime) (req : Request)
    (hconfig : (req.method == "GET" && req.path == "/api/v1/config") = false) :
    handleRequest (startup senv) renv now req = handleRequest (startup senv) renv' now req ∧
    (handleRequest (startup senv) renv now ⟨"GET", "/api/v1/config", req.jsonBody⟩).field
        "environment" = some (.str (getenv senv "ENVIRONMENT" "unknown")) ∧
    (renv "PORT" = renv' "PORT" → renv "LOG_LEVEL" = renv' "LOG_LEVEL" →
      handleRequest (startup senv) renv now ⟨"GET", "/api/v1/config", req.jsonBody⟩ =
        handleRequest (startup senv) renv' now ⟨"GET", "/api/v1/config", req.jsonBody⟩) := by
  refine ⟨?_, rfl, ?_⟩
  · unfold handleRequest
    rw [hconfig]
    simp
  · intro hp hl
    show config (startup senv) renv now = config (startup senv) renv' now
    simp only [config, portField, getenv, hp, hl]

/-- Witness for amended C3: `GET /health` responses agree across a `PORT`
change between the two requests. -/
theorem env_read_discipline_witness :
    handleRequest (startup emptyEnv) emptyEnv sampleNow ⟨"GET", "/health", Except.error ""⟩ =
      handleRequest (startup emptyEnv) envPort9090 sampleNow ⟨"GET", "/health", Except.error ""⟩ :=
  (env_read_discipline emptyEnv emptyEnv envPort9090 sampleNow
    ⟨"GET", "/health", Except.error ""⟩ rfl).1

end PlatformStack
